import Mathlib

/-!
Verification of `norse/torch/functional/stdp_sensor.py`.

The kernel operates element-wise on tensors: every arithmetic operation in
`stdp_sensor_step` is an element-wise tensor operation, so we embed one
element of the computation, with rationals standing for the numeric values.
Parameter and state records mirror the `STDPSensorParameters` and
`STDPSensorState` named tuples, and `stdp_sensor_step` mirrors the Python
function line by line.
-/

/-- Parameters of an STDP sensor, embedding the `STDPSensorParameters`
named tuple (one element of each tensor field). -/
structure STDPSensorParameters where
  eta_p : ℚ
  eta_m : ℚ
  tau_ac_inv : ℚ
  tau_c_inv : ℚ
  deriving Repr, DecidableEq

/-- The default parameter values of `STDPSensorParameters`:
`eta_p = 1.0`, `eta_m = 1.0`, `tau_ac_inv = 1.0 / 100e-3`,
`tau_c_inv = 1.0 / 100e-3`. -/
def STDPSensorParameters.defaults : STDPSensorParameters :=
  ⟨1, 1, 1 / (100 / 1000), 1 / (100 / 1000)⟩

/-- State of an STDP sensor, embedding the `STDPSensorState` named tuple
(one element of each of the two trace tensors). -/
structure STDPSensorState where
  a_pre : ℚ
  a_post : ℚ
  deriving Repr, DecidableEq

/-- One step of the event-driven STDP rule, embedding `stdp_sensor_step`
line by line (element-wise view of the tensor computation). -/
def stdp_sensor_step (z_pre z_post : ℚ) (s : STDPSensorState)
    (p : STDPSensorParameters) (dt : ℚ) : ℚ × STDPSensorState :=
  let da_pre := p.tau_c_inv * (-s.a_pre)
  let a_pre_decayed := s.a_pre + dt * da_pre
  let da_post := p.tau_c_inv * (-s.a_post)
  let a_post_decayed := s.a_post + dt * da_post
  let a_pre_new := a_pre_decayed + z_pre * p.eta_p
  let a_post_new := a_post_decayed + z_post * p.eta_m
  let dw := z_pre * a_pre_new + z_post * a_post_new
  (dw, ⟨a_pre_new, a_post_new⟩)

/-- The default integration time step `dt = 0.001` of `stdp_sensor_step`. -/
def default_dt : ℚ := 1 / 1000

/-- `stdp_sensor_step` as called with the `p` and `dt` arguments omitted,
so that the Python defaults apply. -/
def stdp_sensor_step_defaults (z_pre z_post : ℚ) (s : STDPSensorState) :
    ℚ × STDPSensorState :=
  stdp_sensor_step z_pre z_post s STDPSensorParameters.defaults default_dt

/-- C1: `stdp_sensor_step` decays each trace by
`a + dt * tau_c_inv * (-a)`, adds the spike increment `z * eta`, and
returns `dw = z_pre * a_pre_new + z_post * a_post_new` with the new state
`(a_pre_new, a_post_new)`. -/
theorem stdp_sensor_step_formula (z_pre z_post : ℚ) (s : STDPSensorState)
    (p : STDPSensorParameters) (dt : ℚ) :
    (stdp_sensor_step z_pre z_post s p dt).1 =
      z_pre * (s.a_pre + dt * p.tau_c_inv * (-s.a_pre) + z_pre * p.eta_p) +
        z_post * (s.a_post + dt * p.tau_c_inv * (-s.a_post) + z_post * p.eta_m) ∧
    (stdp_sensor_step z_pre z_post s p dt).2.a_pre =
      s.a_pre + dt * p.tau_c_inv * (-s.a_pre) + z_pre * p.eta_p ∧
    (stdp_sensor_step z_pre z_post s p dt).2.a_post =
      s.a_post + dt * p.tau_c_inv * (-s.a_post) + z_post * p.eta_m := by
  refine ⟨?_, ?_, ?_⟩ <;> (simp only [stdp_sensor_step]; ring)

/-- C2: the outputs of `stdp_sensor_step` are independent of the
`tau_ac_inv` parameter: two calls whose parameters agree on `eta_p`,
`eta_m` and `tau_c_inv` return identical results. -/
theorem stdp_sensor_step_tau_ac_inv_independent (z_pre z_post : ℚ)
    (s : STDPSensorState) (p q : STDPSensorParameters) (dt : ℚ)
    (hp : p.eta_p = q.eta_p) (hm : p.eta_m = q.eta_m)
    (hc : p.tau_c_inv = q.tau_c_inv) :
    stdp_sensor_step z_pre z_post s p dt = stdp_sensor_step z_pre z_post s q dt := by
  simp only [stdp_sensor_step, hp, hm, hc]

/-- Witness for C2 at parameters differing only in `tau_ac_inv`
(`10` versus `5`). -/
theorem stdp_sensor_step_tau_ac_inv_independent_witness :
    stdp_sensor_step 1 1 ⟨2, 3⟩ ⟨1, 1, 10, 10⟩ (1 / 1000) =
      stdp_sensor_step 1 1 ⟨2, 3⟩ ⟨1, 1, 5, 10⟩ (1 / 1000) :=
  stdp_sensor_step_tau_ac_inv_independent 1 1 ⟨2, 3⟩ ⟨1, 1, 10, 10⟩
    ⟨1, 1, 5, 10⟩ (1 / 1000) rfl rfl rfl

/-- C3 counterexample: from the zero state, doubling the spike inputs
does not double `dw` (it quadruples it): at `z_pre = 1`, `z_post = 0`,
default parameters, `k = 2`, the scaled call returns `dw = 4` while
`2 * dw = 2`. -/
theorem stdp_sensor_step_scaling_cex :
    (stdp_sensor_step (2 * 1) (2 * 0) ⟨0, 0⟩ ⟨1, 1, 10, 10⟩ (1 / 1000)).1 = 4 ∧
      2 * (stdp_sensor_step 1 0 ⟨0, 0⟩ ⟨1, 1, 10, 10⟩ (1 / 1000)).1 = 2 ∧
      (stdp_sensor_step (2 * 1) (2 * 0) ⟨0, 0⟩ ⟨1, 1, 10, 10⟩ (1 / 1000)).1 ≠
        2 * (stdp_sensor_step 1 0 ⟨0, 0⟩ ⟨1, 1, 10, 10⟩ (1 / 1000)).1 := by
  refine ⟨?_, ?_, ?_⟩ <;> norm_num [stdp_sensor_step]

/-- C3 amended: from the zero state, scaling both spike inputs by `k`
scales the returned `dw` by `k ^ 2` (the update is linear in spikes for
the traces, but `dw` multiplies the spikes again). -/
theorem stdp_sensor_step_scaling_sq (k z_pre z_post : ℚ)
    (p : STDPSensorParameters) (dt : ℚ) :
    (stdp_sensor_step (k * z_pre) (k * z_post) ⟨0, 0⟩ p dt).1 =
      k ^ 2 * (stdp_sensor_step z_pre z_post ⟨0, 0⟩ p dt).1 := by
  simp only [stdp_sensor_step]
  ring

/-- C4 counterexample: with zero spikes, `tau_c_inv = 10 ≠ 0`, `dt = 1`
and `a_pre = 1`, the new trace is `-9`, whose absolute value exceeds
`|a_pre| = 1`, refuting `|a_new| ≤ |a_old|` for arbitrary parameters. -/
theorem stdp_sensor_step_decay_cex :
    (stdp_sensor_step 0 0 ⟨1, 0⟩ ⟨1, 1, 10, 10⟩ 1).2.a_pre = -9 ∧
      ¬ |(stdp_sensor_step 0 0 ⟨1, 0⟩ ⟨1, 1, 10, 10⟩ 1).2.a_pre| ≤
          |(1 : ℚ)| := by
  have h : (stdp_sensor_step 0 0 ⟨1, 0⟩ ⟨1, 1, 10, 10⟩ 1).2.a_pre = -9 := by
    norm_num [stdp_sensor_step]
  rw [h]
  norm_num

/-- With zero spikes the pre-trace update is multiplication by the decay
factor `1 - dt * tau_c_inv`. -/
lemma zero_spike_trace_pre (s : STDPSensorState) (p : STDPSensorParameters)
    (dt : ℚ) :
    (stdp_sensor_step 0 0 s p dt).2.a_pre = (1 - dt * p.tau_c_inv) * s.a_pre := by
  simp only [stdp_sensor_step]
  ring

/-- With zero spikes the post-trace update is multiplication by the decay
factor `1 - dt * tau_c_inv`. -/
lemma zero_spike_trace_post (s : STDPSensorState) (p : STDPSensorParameters)
    (dt : ℚ) :
    (stdp_sensor_step 0 0 s p dt).2.a_post = (1 - dt * p.tau_c_inv) * s.a_post := by
  simp only [stdp_sensor_step]
  ring

/-- Multiplying by a factor `1 - c` with `0 ≤ c ≤ 1` does not increase the
absolute value, with equality exactly when `c = 0` or the value is zero. -/
lemma abs_decay (a c : ℚ) (h0 : 0 ≤ c) (h1 : c ≤ 1) :
    |(1 - c) * a| ≤ |a| ∧ (|(1 - c) * a| = |a| ↔ c = 0 ∨ a = 0) := by
  have hc : |1 - c| = 1 - c := abs_of_nonneg (by linarith)
  rw [abs_mul, hc]
  refine ⟨by nlinarith [abs_nonneg a], ?_, ?_⟩
  · intro h
    by_contra hne
    push_neg at hne
    obtain ⟨hc0, ha0⟩ := hne
    have hcpos : 0 < c := lt_of_le_of_ne h0 (Ne.symm hc0)
    have hapos : 0 < |a| := abs_pos.mpr ha0
    nlinarith
  · rintro (rfl | rfl) <;> simp

/-- C4 amended: with zero spikes and `0 ≤ dt * tau_c_inv ≤ 1`, each trace
satisfies `|a_new| ≤ |a_old|`, with equality exactly when `dt = 0`,
`tau_c_inv = 0`, or that trace is already zero. -/
theorem stdp_sensor_step_decay_contraction (s : STDPSensorState)
    (p : STDPSensorParameters) (dt : ℚ)
    (h0 : 0 ≤ dt * p.tau_c_inv) (h1 : dt * p.tau_c_inv ≤ 1) :
    (|(stdp_sensor_step 0 0 s p dt).2.a_pre| ≤ |s.a_pre| ∧
      (|(stdp_sensor_step 0 0 s p dt).2.a_pre| = |s.a_pre| ↔
        dt = 0 ∨ p.tau_c_inv = 0 ∨ s.a_pre = 0)) ∧
    (|(stdp_sensor_step 0 0 s p dt).2.a_post| ≤ |s.a_post| ∧
      (|(stdp_sensor_step 0 0 s p dt).2.a_post| = |s.a_post| ↔
        dt = 0 ∨ p.tau_c_inv = 0 ∨ s.a_post = 0)) := by
  rw [zero_spike_trace_pre, zero_spike_trace_post]
  have hpre := abs_decay s.a_pre (dt * p.tau_c_inv) h0 h1
  have hpost := abs_decay s.a_post (dt * p.tau_c_inv) h0 h1
  rw [mul_eq_zero, or_assoc] at hpre hpost
  exact ⟨hpre, hpost⟩

/-- Witness for C4 amended at `s = (1, 2)`, default parameters and
`dt = 0.001` (so `dt * tau_c_inv = 1/100`). -/
theorem stdp_sensor_step_decay_contraction_witness :
    |(stdp_sensor_step 0 0 ⟨1, 2⟩ ⟨1, 1, 10, 10⟩ (1 / 1000)).2.a_pre| ≤ |(1 : ℚ)| :=
  ((stdp_sensor_step_decay_contraction ⟨1, 2⟩ ⟨1, 1, 10, 10⟩ (1 / 1000)
    (by norm_num) (by norm_num)).1).1

/-- C5: on the concrete input `a_pre = a_post = 0`, `z_pre = 1`,
`z_post = 0`, `eta_p = eta_m = 1`, `tau_c_inv = 10`, `dt = 0.001`, the
step returns `dw = 1` and the new state `(1, 0)`. -/
theorem stdp_sensor_step_concrete_scenario :
    stdp_sensor_step 1 0 ⟨0, 0⟩ ⟨1, 1, 10, 10⟩ (1 / 1000) = (1, ⟨1, 0⟩) := by
  norm_num [stdp_sensor_step, Prod.ext_iff, STDPSensorState.mk.injEq]

/-- C6: with `dt = 0` the decay is inactive and each trace updates exactly
by the spike-driven increment `a_new = a_old + z * eta`. -/
theorem stdp_sensor_step_dt_zero (z_pre z_post : ℚ) (s : STDPSensorState)
    (p : STDPSensorParameters) :
    (stdp_sensor_step z_pre z_post s p 0).2.a_pre = s.a_pre + z_pre * p.eta_p ∧
    (stdp_sensor_step z_pre z_post s p 0).2.a_post = s.a_post + z_post * p.eta_m := by
  constructor <;> (simp only [stdp_sensor_step]; ring)

/-- C7: the defaults are `eta_p = 1`, `eta_m = 1`, `tau_ac_inv = 10`,
`tau_c_inv = 10`, `dt = 1/1000`, and a call with `p` and `dt` omitted
equals a call passing those values explicitly. -/
theorem stdp_sensor_step_defaults_spec (z_pre z_post : ℚ) (s : STDPSensorState) :
    STDPSensorParameters.defaults = ⟨1, 1, 10, 10⟩ ∧ default_dt = 1 / 1000 ∧
      stdp_sensor_step_defaults z_pre z_post s =
        stdp_sensor_step z_pre z_post s ⟨1, 1, 10, 10⟩ (1 / 1000) := by
  have hp : STDPSensorParameters.defaults = ⟨1, 1, 10, 10⟩ := by
    simp only [STDPSensorParameters.defaults, STDPSensorParameters.mk.injEq]
    norm_num
  have hd : default_dt = 1 / 1000 := rfl
  refine ⟨hp, hd, ?_⟩
  simp only [stdp_sensor_step_defaults, hp, hd]

/-- C8: `stdp_sensor_step` is deterministic: two calls with equal spikes,
state, parameters and time step return equal outputs. -/
theorem stdp_sensor_step_deterministic (z_pre z_post z_pre' z_post' : ℚ)
    (s s' : STDPSensorState) (p p' : STDPSensorParameters) (dt dt' : ℚ)
    (h1 : z_pre = z_pre') (h2 : z_post = z_post') (h3 : s = s') (h4 : p = p')
    (h5 : dt = dt') :
    stdp_sensor_step z_pre z_post s p dt =
      stdp_sensor_step z_pre' z_post' s' p' dt' := by
  rw [h1, h2, h3, h4, h5]

/-- Witness for C8 at a concrete input. -/
theorem stdp_sensor_step_deterministic_witness :
    stdp_sensor_step 1 0 ⟨0, 0⟩ ⟨1, 1, 10, 10⟩ (1 / 1000) =
      stdp_sensor_step 1 0 ⟨0, 0⟩ ⟨1, 1, 10, 10⟩ (1 / 1000) :=
  stdp_sensor_step_deterministic 1 0 1 0 ⟨0, 0⟩ ⟨0, 0⟩ ⟨1, 1, 10, 10⟩
    ⟨1, 1, 10, 10⟩ (1 / 1000) (1 / 1000) rfl rfl rfl rfl rfl

/-- C9: when both spike inputs are zero the returned `dw` is exactly zero,
for every state and parameters. -/
theorem stdp_sensor_step_zero_spikes_dw (s : STDPSensorState)
    (p : STDPSensorParameters) (dt : ℚ) :
    (stdp_sensor_step 0 0 s p dt).1 = 0 := by
  simp [stdp_sensor_step]

/-- C10: swapping the pre- and post-synaptic roles (spikes, traces and
gains) swaps the two traces of the returned state and leaves `dw`
unchanged. -/
theorem stdp_sensor_step_swap (z_pre z_post : ℚ) (s : STDPSensorState)
    (p : STDPSensorParameters) (dt : ℚ) :
    (stdp_sensor_step z_post z_pre ⟨s.a_post, s.a_pre⟩
        ⟨p.eta_m, p.eta_p, p.tau_ac_inv, p.tau_c_inv⟩ dt).1 =
      (stdp_sensor_step z_pre z_post s p dt).1 ∧
    (stdp_sensor_step z_post z_pre ⟨s.a_post, s.a_pre⟩
        ⟨p.eta_m, p.eta_p, p.tau_ac_inv, p.tau_c_inv⟩ dt).2.a_pre =
      (stdp_sensor_step z_pre z_post s p dt).2.a_post ∧
    (stdp_sensor_step z_post z_pre ⟨s.a_post, s.a_pre⟩
        ⟨p.eta_m, p.eta_p, p.tau_ac_inv, p.tau_c_inv⟩ dt).2.a_post =
      (stdp_sensor_step z_pre z_post s p dt).2.a_pre := by
  refine ⟨?_, ?_, ?_⟩ <;> (simp only [stdp_sensor_step]; try ring)
